import Mathlib

set_option maxRecDepth 4096

/-!
Verification of the event-ingestion and ads-attribution core of the
analytics platform (src/analytics/api/main.py and
src/analytics/integrations/google_ads_sync.py).

Strings are modelled as Lean `String`s (sequences of Unicode code points,
matching Python `str`); timestamps as `Int` seconds since the Unix epoch in
UTC; Python floats as exact rationals (`ℚ`); SQL table states as Lean lists
of row structures.  Every definition is translated from the source; the few
places where repository code outside `src/` (table declarations, library
internals) had to be modelled from the spec carry a doc comment saying so.
-/

/-- Python truthiness of the characters kept by `DataCleaner.clean_string`
(main.py line 126): code point at least 32, or tab, newline, carriage
return. -/
def keepChar (c : Char) : Bool :=
  decide (32 ≤ c.toNat ∨ c = '\t' ∨ c = '\n' ∨ c = '\r')

/-- The characters Python `str.strip()` removes: Unicode whitespace
(`str.isspace`).  Only tab/newline/CR/space can actually survive the
control-character filter of `clean_string`, but the full set is kept for
fidelity. -/
def pySpaceChar (c : Char) : Bool :=
  decide (c ∈ [' ', '\t', '\n', '\r', '\x0b', '\x0c',
    '\x1c', '\x1d', '\x1e', '\x1f', '\x85', '\xa0',
    ' ', ' ', ' ', ' ', ' ', ' ', ' ',
    ' ', ' ', ' ', ' ', ' ',
    ' ', ' ', ' ', ' ', '　'])

/-- Python `str.strip()` on a character list: drop whitespace from both
ends. -/
def pyStripL (l : List Char) : List Char :=
  ((l.dropWhile pySpaceChar).reverse.dropWhile pySpaceChar).reverse

/-- `DataCleaner.clean_string` (main.py lines 120-127), also
`GoogleAdsSync._clean_string` (google_ads_sync.py lines 402-409): empty
input short-circuits to `""`; otherwise remove control characters, truncate
to `max_length` code points, strip surrounding whitespace. -/
def clean_string (value : String) (maxLength : Nat) : String :=
  if value = "" then ""
  else String.mk (pyStripL ((value.data.filter keepChar).take maxLength))

/-- Python `str.lower` over a character list, restricted to ASCII:
`Char.toLower` maps each ASCII uppercase letter to its lowercase form and
leaves every other character unchanged.  (The bot denylist and every string
the claims quantify over are ASCII.) -/
def pyLowerL (l : List Char) : List Char := l.map Char.toLower

/-- Python `str.split('.')` on a character list. -/
def splitDot : List Char → List (List Char)
  | [] => [[]]
  | c :: rest =>
    if c = '.' then [] :: splitDot rest
    else
      match splitDot rest with
      | [] => [[c]]
      | p :: ps => (c :: p) :: ps

/-- The zero digit of every decimal-digit block of Unicode 15.0 (general
category Nd); each block is ten consecutive code points.  Python `int()`
accepts any Unicode decimal digit, each contributing its value 0-9. -/
def ndDigitZeros : List Nat :=
  [0x30, 0x660, 0x6F0, 0x7C0, 0x966, 0x9E6, 0xA66, 0xAE6, 0xB66, 0xBE6,
   0xC66, 0xCE6, 0xD66, 0xDE6, 0xE50, 0xED0, 0xF20, 0x1040, 0x1090, 0x17E0,
   0x1810, 0x1946, 0x19D0, 0x1A80, 0x1A90, 0x1B50, 0x1BB0, 0x1C40, 0x1C50,
   0xA620, 0xA8D0, 0xA900, 0xA9D0, 0xA9F0, 0xAA50, 0xABF0, 0xFF10,
   0x104A0, 0x10D30, 0x11066, 0x110F0, 0x11136, 0x111D0, 0x112F0, 0x11450,
   0x114D0, 0x11650, 0x116C0, 0x11730, 0x118E0, 0x11950, 0x11C50, 0x11D50,
   0x11DA0, 0x11F50, 0x16A60, 0x16AC0, 0x16B50,
   0x1D7CE, 0x1D7D8, 0x1D7E2, 0x1D7EC, 0x1D7F6,
   0x1E140, 0x1E2F0, 0x1E4F0, 0x1E950, 0x1FBF0]

/-- The decimal value of a Unicode decimal digit (`none` for every other
character), as CPython's `int()` parser assigns it: the offset of the code
point inside its Nd block. -/
def decDigitVal? (c : Char) : Option Nat :=
  (ndDigitZeros.find? fun b => decide (b ≤ c.toNat) && decide (c.toNat ≤ b + 9)).map
    fun b => c.toNat - b

/-- A Unicode decimal digit. -/
def isDecDigit (c : Char) : Bool := (decDigitVal? c).isSome

/-- Decimal value of a run of Unicode decimal digits (underscores already
removed). -/
def digitsToNat (l : List Char) : Nat :=
  l.foldl (fun a c => a * 10 + (decDigitVal? c).getD 0) 0

/-- An ASCII decimal digit (the octet alphabet of a strict dotted-quad). -/
def isDigitChar (c : Char) : Bool :=
  decide (48 ≤ c.toNat ∧ c.toNat ≤ 57)

/-- Grammar of a Python base-10 integer literal body, `digit (["_"] digit)*`
over Unicode decimal digits: nonempty, every character a digit or
underscore, first and last characters digits, and no two adjacent
underscores. -/
def pyDigitsOk (l : List Char) : Bool :=
  decide (l ≠ []) && l.all (fun c => isDecDigit c || c = '_') &&
  (match l.head? with | some c => isDecDigit c | none => false) &&
  (match l.getLast? with | some c => isDecDigit c | none => false) &&
  !(decide (['_', '_'] <:+: l))

/-- The sign-and-digits grammar of Python `int(s)` after whitespace
stripping: one optional leading sign, then an underscore-grouped run of
Unicode decimal digits. -/
def pyIntBody : List Char → Option Int
  | [] => none
  | c :: rest =>
    if c = '+' then
      if pyDigitsOk rest then some ((digitsToNat (rest.filter isDecDigit) : Int)) else none
    else if c = '-' then
      if pyDigitsOk rest then some (-((digitsToNat (rest.filter isDecDigit) : Int))) else none
    else if pyDigitsOk (c :: rest) then
      some ((digitsToNat ((c :: rest).filter isDecDigit) : Int))
    else none

/-- Python `int(s)` for base 10: strips surrounding whitespace, allows one
leading sign, then an underscore-grouped run of Unicode decimal digits
(ASCII, Arabic-Indic, fullwidth, ...); anything else raises `ValueError`
(modelled as `none`). -/
def pyIntL (l : List Char) : Option Int :=
  pyIntBody (pyStripL l)

/-- `DataCleaner.validate_ip_address` (main.py lines 129-146): empty or
already-zero input yields `"0.0.0.0"`; otherwise split on `'.'`, demand
exactly 4 parts, parse each with Python `int` (a `ValueError` is caught and
also yields `"0.0.0.0"`), demand each value in `[0, 255]`, and return the
input unchanged when all checks pass. -/
def validate_ip_address (ip : String) : String :=
  if ip = "" ∨ ip = "0.0.0.0" then "0.0.0.0"
  else
    let parts := splitDot ip.data
    if parts.length ≠ 4 then "0.0.0.0"
    else if parts.all (fun p =>
        match pyIntL p with
        | some n => decide (0 ≤ n) && decide (n ≤ 255)
        | none => false) then ip
    else "0.0.0.0"

/-- The denylist of `DataCleaner.detect_bot_traffic` (main.py lines
163-166). -/
def bot_indicators : List String :=
  ["bot", "crawler", "spider", "scraper", "curl", "wget",
   "python-requests", "java/", "go-http-client"]

/-- `DataCleaner.detect_bot_traffic` (main.py lines 157-169): falsy user
agent is not a bot; otherwise lowercase the user agent and test each
denylist entry for substring containment. -/
def detect_bot_traffic (user_agent : String) : Bool :=
  if user_agent = "" then false
  else bot_indicators.any fun ind => decide (ind.data <:+: pyLowerL user_agent.data)

/-- Modelled from the spec: `hashlib.md5(...).hexdigest()` is Python
standard-library code, not under `src/`.  Spec 4.1 relies only on the
fingerprint being a deterministic one-way digest used as a best-effort
device-linking key, so any fixed deterministic digest function is a
faithful model. -/
def md5Hex (s : String) : String :=
  toString (s.data.foldl (fun a c => (a * 131 + c.toNat) % 1000000007) 7)

/-- `DataCleaner.generate_device_fingerprint` (main.py lines 148-155):
empty when both inputs are empty, else a digest of the
user_agent-colon-ip concatenation. -/
def generate_device_fingerprint (user_agent ip : String) : String :=
  if user_agent = "" ∧ ip = "" then ""
  else md5Hex (user_agent ++ ":" ++ ip)

/-- Python `str.startswith` via the character list. -/
def pyStartsWith (s p : String) : Bool := p.data.isPrefixOf s.data

/-- The `validate_urls` pydantic validator (main.py lines 91-99): non-empty
URLs lacking an `http(s)://` scheme get `https:` prepended when
protocol-relative, `https://` prepended when not starting with `/`, and are
left alone when they are site-absolute paths. -/
def validate_urls (v : String) : String :=
  if v ≠ "" ∧ ¬(pyStartsWith v "http://" ∨ pyStartsWith v "https://") then
    if pyStartsWith v "//" then "https:" ++ v
    else if ¬ pyStartsWith v "/" then "https://" ++ v
    else v
  else v

example : clean_string "a\x00b\x07c" 10 = "abc" := by decide
example : validate_ip_address "1.2.3.4" = "1.2.3.4" := by decide
example : validate_ip_address "999.1.1.1" = "0.0.0.0" := by decide
example : validate_ip_address "+1.2.3.4" = "+1.2.3.4" := by decide
example : validate_ip_address "1_0.2.3.4" = "1_0.2.3.4" := by decide
example : validate_ip_address "١.٢.٣.٤" = "١.٢.٣.٤" := by decide
example : validate_ip_address "１.2.3.4" = "１.2.3.4" := by decide
example : validate_ip_address "٢٥٦.0.0.1" = "0.0.0.0" := by decide
example : validate_ip_address "::1" = "0.0.0.0" := by decide
example : validate_ip_address "" = "0.0.0.0" := by decide
example : detect_bot_traffic "Googlebot/2.1" = true := by decide
example : detect_bot_traffic "Mozilla/5.0 normal browser" = false := by decide
example : validate_urls "example.com/x" = "https://example.com/x" := by decide
example : validate_urls "//cdn.x.io" = "https://cdn.x.io" := by decide

/-- The `EventData` pydantic model (main.py lines 31-108) after successful
boundary validation.  Optional string fields with default `''` are plain
strings (`None` coincides with `''` through the `or ''` guards of
`_clean_event`); timestamps are UTC seconds; `revenue` is an exact
rational; `custom_properties` is carried as its JSON serialization. -/
structure EventData where
  event_id : String
  event_time : Int
  event_type : String
  user_id : String
  anonymous_id : String
  session_id : String
  visit_id : Nat
  device_fingerprint : String
  user_agent : String
  ip_address : String
  page_url : String
  page_title : String
  referrer_url : String
  utm_source : String
  utm_medium : String
  utm_campaign : String
  utm_content : String
  utm_term : String
  gclid : String
  gbraid : String
  wbraid : String
  revenue : ℚ
  currency : String
  order_id : String
  product_id : String
  product_category : String
  quantity : Nat
  custom_properties : String
  session_start_time : Option Int
  session_duration : Nat
  page_views_in_session : Nat
  is_bounce : Bool
deriving DecidableEq

/-- One row of `analytics.events_buffer` / `analytics.events` in the column
order of `ClickHouseManager.insert_events` (main.py lines 225-233). -/
structure CleanedEvent where
  event_id : String
  event_time : Int
  event_type : String
  user_id : String
  anonymous_id : String
  session_id : String
  visit_id : Nat
  device_fingerprint : String
  user_agent : String
  ip_address : String
  page_url : String
  page_title : String
  referrer_url : String
  utm_source : String
  utm_medium : String
  utm_campaign : String
  utm_content : String
  utm_term : String
  gclid : String
  gbraid : String
  wbraid : String
  revenue : ℚ
  currency : String
  order_id : String
  product_id : String
  product_category : String
  quantity : Nat
  custom_properties : String
  session_start_time : Int
  session_duration : Nat
  page_views_in_session : Nat
  is_bounce : Nat
  is_valid : Nat
  validation_errors : String
deriving DecidableEq

/-- Banker's-rounding of a rational to an integer (the behaviour of Python
`round` on the real value). -/
def roundHalfEven (q : ℚ) : ℤ :=
  let f : ℤ := Int.ediv q.num q.den
  let r : ℚ := q - f
  if r < 1/2 then f
  else if 1/2 < r then f + 1
  else if f % 2 = 0 then f else f + 1

/-- Python `round(q, n)` on the real value of a float. -/
def pyRound (q : ℚ) (n : Nat) : ℚ := (roundHalfEven (q * 10 ^ n) : ℚ) / 10 ^ n

/-- `ClickHouseManager._clean_event` (main.py lines 244-291): backfill the
device fingerprint and the session start time, clean every string field,
round revenue to 2 decimals, default the counters, and initialise
`is_valid = 1` with empty `validation_errors`. -/
def _clean_event (e : EventData) : CleanedEvent :=
  let fp := if e.device_fingerprint = "" then
      generate_device_fingerprint e.user_agent e.ip_address
    else e.device_fingerprint
  { event_id := clean_string e.event_id 255
  , event_time := e.event_time
  , event_type := clean_string e.event_type 100
  , user_id := clean_string e.user_id 255
  , anonymous_id := clean_string e.anonymous_id 255
  , session_id := clean_string e.session_id 255
  , visit_id := e.visit_id
  , device_fingerprint := clean_string fp 255
  , user_agent := clean_string e.user_agent 1000
  , ip_address := validate_ip_address (if e.ip_address = "" then "0.0.0.0" else e.ip_address)
  , page_url := clean_string e.page_url 2000
  , page_title := clean_string e.page_title 500
  , referrer_url := clean_string e.referrer_url 2000
  , utm_source := clean_string e.utm_source 255
  , utm_medium := clean_string e.utm_medium 255
  , utm_campaign := clean_string e.utm_campaign 255
  , utm_content := clean_string e.utm_content 255
  , utm_term := clean_string e.utm_term 255
  , gclid := clean_string e.gclid 255
  , gbraid := clean_string e.gbraid 255
  , wbraid := clean_string e.wbraid 255
  , revenue := pyRound e.revenue 2
  , currency := clean_string (if e.currency = "" then "USD" else e.currency) 3
  , order_id := clean_string e.order_id 255
  , product_id := clean_string e.product_id 255
  , product_category := clean_string e.product_category 255
  , quantity := e.quantity
  , custom_properties := e.custom_properties
  , session_start_time := e.session_start_time.getD e.event_time
  , session_duration := e.session_duration
  , page_views_in_session := if e.page_views_in_session = 0 then 1 else e.page_views_in_session
  , is_bounce := if e.is_bounce then 1 else 0
  , is_valid := 1
  , validation_errors := "" }

/-- Every step of `_clean_event` is total for a boundary-validated
`EventData`, so the per-event `try` of `insert_events` always reaches the
`ok` branch; the `Except` wrapper mirrors that `try`. -/
def cleanEventE (e : EventData) : Except String CleanedEvent :=
  Except.ok (_clean_event e)

/-- The per-event body of the `insert_events` loop (main.py lines 200-210):
clean, then force the bot flag when the cleaned user agent matches the
denylist. -/
def processEvent (e : EventData) : CleanedEvent :=
  if detect_bot_traffic (_clean_event e).user_agent then
    { _clean_event e with is_valid := 0, validation_errors := "bot_traffic" }
  else _clean_event e

/-- Outcome of one `insert_events` call: the rows handed to the single bulk
write, and the per-event `(event_id, error)` rejection pairs. -/
structure BatchResult where
  stored : List CleanedEvent
  rejections : List (String × String)
deriving DecidableEq

/-- One iteration of the `insert_events` loop (main.py lines 200-217): the
`try` body cleans and bot-flags the event; the `except` arm records an
`(event_id, error)` pair instead of aborting the batch. -/
def insertStep (acc : BatchResult) (e : EventData) : BatchResult :=
  match cleanEventE e with
  | Except.ok cleaned =>
    let cleaned := if detect_bot_traffic cleaned.user_agent then
        { cleaned with is_valid := 0, validation_errors := "bot_traffic" }
      else cleaned
    { acc with stored := acc.stored ++ [cleaned] }
  | Except.error msg =>
    { acc with rejections := acc.rejections ++ [(e.event_id, msg)] }

/-- `ClickHouseManager.insert_events` (main.py lines 192-242): iterate the
batch, isolating each event's cleaning per `insertStep`; the accumulated
cleaned rows then go to ClickHouse in one bulk write. -/
def insert_events (events : List EventData) : BatchResult :=
  events.foldl insertStep ⟨[], []⟩

/-- `now.replace(hour=23, minute=59, second=59)` of `validate_event_time`
(main.py line 85) at second precision: the last second of the current UTC
day. -/
def endOfToday (now : Int) : Int := (Int.ediv now 86400) * 86400 + 86399

/-- The `validate_event_time` pydantic validator (main.py lines 81-89): an
event time after the end of the current UTC day raises; staleness beyond 7
days only logs a warning and still returns the value. -/
def validate_event_time (now v : Int) : Except String Int :=
  if endOfToday now < v then Except.error "Event time cannot be in the future"
  else Except.ok v

/-- The schema-level `Field` constraints of `EventData` (main.py lines
32-79): required fields nonempty, length caps, numeric floors. -/
def structuralOk (e : EventData) : Bool :=
  decide (1 ≤ e.event_id.length ∧ e.event_id.length ≤ 255
    ∧ 1 ≤ e.event_type.length ∧ e.event_type.length ≤ 100
    ∧ e.user_id.length ≤ 255
    ∧ 1 ≤ e.anonymous_id.length ∧ e.anonymous_id.length ≤ 255
    ∧ 1 ≤ e.session_id.length ∧ e.session_id.length ≤ 255
    ∧ 1 ≤ e.visit_id
    ∧ e.device_fingerprint.length ≤ 255
    ∧ e.user_agent.length ≤ 1000
    ∧ e.page_url.length ≤ 2000 ∧ e.page_title.length ≤ 500
    ∧ e.referrer_url.length ≤ 2000
    ∧ e.utm_source.length ≤ 255 ∧ e.utm_medium.length ≤ 255
    ∧ e.utm_campaign.length ≤ 255 ∧ e.utm_content.length ≤ 255
    ∧ e.utm_term.length ≤ 255
    ∧ e.gclid.length ≤ 255 ∧ e.gbraid.length ≤ 255 ∧ e.wbraid.length ≤ 255
    ∧ 0 ≤ e.revenue ∧ e.currency.length ≤ 3
    ∧ e.order_id.length ≤ 255 ∧ e.product_id.length ≤ 255
    ∧ e.product_category.length ≤ 255
    ∧ 1 ≤ e.page_views_in_session)

/-- Pydantic validation of one submitted event: schema constraints, the
future-time check, and the URL-normalising validators.  Runs while FastAPI
parses the request body, before `insert_events` ever sees the batch. -/
def parseEvent (now : Int) (e : EventData) : Except String EventData :=
  if structuralOk e = false then Except.error "validation error"
  else
    match validate_event_time now e.event_time with
    | Except.error m => Except.error m
    | Except.ok _ =>
      Except.ok { e with
        page_url := validate_urls e.page_url
        , referrer_url := validate_urls e.referrer_url }

/-- Pydantic validation of the whole `EventBatch`: any failing event fails
the entire submission. -/
def parseBatchEvents (now : Int) : List EventData → Except String (List EventData)
  | [] => Except.ok []
  | e :: rest =>
    match parseEvent now e with
    | Except.error m => Except.error m
    | Except.ok e2 =>
      match parseBatchEvents now rest with
      | Except.error m => Except.error m
      | Except.ok r => Except.ok (e2 :: r)

/-- Result of one `POST /api/events` submission: `parse_error` means the
batch bounced wholesale with HTTP 422 and `insert_events` never ran. -/
structure ApiResult where
  stored : List CleanedEvent
  rejections : List (String × String)
  parse_error : Bool
deriving DecidableEq

/-- The `/api/events` path (main.py lines 367-385): FastAPI validates the
1..1000-event batch while parsing; only a fully valid batch reaches
`insert_events`. -/
def collect_events (now : Int) (events : List EventData) : ApiResult :=
  if events.length < 1 ∨ 1000 < events.length then ⟨[], [], true⟩
  else
    match parseBatchEvents now events with
    | Except.error _ => ⟨[], [], true⟩
    | Except.ok evs =>
      let r := insert_events evs
      ⟨r.stored, r.rejections, false⟩

/-- Python `int()` applied to a float value: truncation toward zero. -/
def pyTrunc (q : ℚ) : ℤ :=
  if 0 ≤ q then Int.ediv q.num q.den else -(Int.ediv (-q).num (-q).den)

/-- One raw row of the ads-platform search response read by
`_fetch_campaign_performance` (google_ads_sync.py lines 151-171).  Metric
fields are `Option`-valued: `none` models a missing/null metric, which the
code defaults to 0 through `or 0` before any arithmetic. -/
structure AdsApiRow where
  date : String
  customer_id : Nat
  campaign_id : Nat
  campaign_name : String
  ad_group_id : Nat
  ad_group_name : String
  criterion_id : Nat
  keyword_text : String
  impressions : Option Int
  clicks : Option Int
  cost_micros : Option ℚ
  conversions : Option ℚ
  conversions_value : Option ℚ
  quality_score : Option ℚ
  ctr : Option ℚ
  average_cpc : Option ℚ
  average_position : Option ℚ
deriving DecidableEq

/-- One canonical performance record as built by
`_fetch_campaign_performance` for `analytics.google_ads_performance`. -/
structure PerformanceRecord where
  date : String
  account_id : String
  campaign_id : String
  campaign_name : String
  ad_group_id : String
  ad_group_name : String
  keyword_id : String
  keyword_text : String
  impressions : Int
  clicks : Int
  cost : ℚ
  conversions : Int
  conversion_value : ℚ
  quality_score : ℚ
  ctr : ℚ
  avg_cpc : ℚ
  avg_position : ℚ
  sync_timestamp : String
deriving DecidableEq

/-- The dictionary built per response row in `_fetch_campaign_performance`
(google_ads_sync.py lines 152-171): micros divided by 1,000,000 rounded to
2 decimals for `cost` and `avg_cpc`, `ctr` scaled by 100 rounded to 4
decimals, every missing metric defaulted to 0 first. -/
def buildPerformanceRecord (ts : String) (r : AdsApiRow) : PerformanceRecord :=
  { date := r.date
  , account_id := toString r.customer_id
  , campaign_id := toString r.campaign_id
  , campaign_name := clean_string r.campaign_name 255
  , ad_group_id := toString r.ad_group_id
  , ad_group_name := clean_string r.ad_group_name 255
  , keyword_id := toString r.criterion_id
  , keyword_text := clean_string r.keyword_text 255
  , impressions := r.impressions.getD 0
  , clicks := r.clicks.getD 0
  , cost := pyRound (r.cost_micros.getD 0 / 1000000) 2
  , conversions := pyTrunc (r.conversions.getD 0)
  , conversion_value := pyRound (r.conversions_value.getD 0) 2
  , quality_score := r.quality_score.getD 0
  , ctr := pyRound (r.ctr.getD 0 * 100) 4
  , avg_cpc := pyRound (r.average_cpc.getD 0 / 1000000) 2
  , avg_position := pyRound (r.average_position.getD 0) 2
  , sync_timestamp := ts }

/-- Projection of an `analytics.google_ads_performance` row to the columns
the attribution query reads (`date`, `campaign_name`, `clicks`, `cost`);
`date` is a ClickHouse `Date`, days since epoch. -/
structure GoogleAdsPerfRow where
  date : Int
  campaign_name : String
  clicks : Nat
  cost : ℚ
deriving DecidableEq

/-- ClickHouse `toDate` over a UTC `DateTime`: days since epoch. -/
def toDate (t : Int) : Int := Int.ediv t 86400

/-- `GROUP BY` key extraction: first occurrences of each key, in order. -/
def groupKeys {α : Type} [DecidableEq α] (l : List α) : List α :=
  l.foldl (fun acc k => if k ∈ acc then acc else acc ++ [k]) []

/-- One row of the `google_ads_clicks` CTE (google_ads_sync.py lines
222-231). -/
structure AdAgg where
  date : Int
  campaign_name : String
  ad_clicks : Nat
  ad_spend : ℚ
deriving DecidableEq

/-- The `google_ads_clicks` CTE: restrict to the trailing 30 days, group by
`(date, campaign_name)`, and sum clicks and cost. -/
def google_ads_clicks (today : Int) (perf : List GoogleAdsPerfRow) : List AdAgg :=
  let rows := perf.filter fun r => decide (today - 30 ≤ r.date)
  (groupKeys (rows.map fun r => (r.date, r.campaign_name))).map fun k =>
    let g := rows.filter fun r => decide ((r.date, r.campaign_name) = k)
    ⟨k.1, k.2, (g.map (fun r => r.clicks)).sum, (g.map (fun r => r.cost)).sum⟩

/-- One row of the `website_conversions` CTE (google_ads_sync.py lines
232-246). -/
structure SiteAgg where
  date : Int
  campaign_name : String
  unique_users : Nat
  website_revenue : ℚ
  conversions : Nat
deriving DecidableEq

/-- The `website_conversions` CTE: valid google/cpc events with a campaign
in the trailing 30 days, grouped by `(toDate(event_time), utm_campaign)`,
aggregating distinct users, summed revenue, and purchase counts. -/
def website_conversions (today : Int) (events : List CleanedEvent) : List SiteAgg :=
  let rows := events.filter fun e => decide (today - 30 ≤ toDate e.event_time
    ∧ e.utm_source = "google" ∧ e.utm_medium = "cpc"
    ∧ e.utm_campaign ≠ "" ∧ e.is_valid = 1)
  (groupKeys (rows.map fun e => (toDate e.event_time, e.utm_campaign))).map fun k =>
    let g := rows.filter fun e => decide ((toDate e.event_time, e.utm_campaign) = k)
    ⟨k.1, k.2, (groupKeys (g.map fun e => e.user_id)).length,
      (g.map fun e => e.revenue).sum,
      (g.filter fun e => decide (e.event_type = "purchase")).length⟩

/-- The ad-side columns a `FULL OUTER JOIN` produces for a row with no
ad-side match.  ClickHouse runs with its default `join_use_nulls = 0` (the
query never changes it), so the missing side is filled with the column
types' default values: epoch `Date`, empty `String`, numeric zeros —
never `NULL`. -/
def defaultAdAgg : AdAgg := ⟨0, "", 0, 0⟩

/-- Site-side default columns for an unmatched ad-side row under
`join_use_nulls = 0`. -/
def defaultSiteAgg : SiteAgg := ⟨0, "", 0, 0, 0⟩

/-- One output row of the attribution query / one
`analytics.attribution_summary` row. -/
structure AttribRow where
  date : Int
  campaign_name : String
  ad_clicks : Nat
  ad_spend : ℚ
  website_users : Nat
  website_revenue : ℚ
  website_conversions : Nat
  roas : ℚ
  cost_per_conversion : ℚ
  click_to_visit_rate : ℚ
deriving DecidableEq

/-- The `FULL OUTER JOIN ... ON gac.date = wc.date AND gac.campaign_name =
wc.campaign_name` (google_ads_sync.py lines 260-262): every matching pair,
each unmatched ad aggregate paired with site defaults, each unmatched site
aggregate paired with ad defaults. -/
def fullOuterPairs (ads : List AdAgg) (sites : List SiteAgg) : List (AdAgg × SiteAgg) :=
  (ads.flatMap fun a =>
    let ms := sites.filter fun w => decide (w.date = a.date ∧ w.campaign_name = a.campaign_name)
    if ms.isEmpty then [(a, defaultSiteAgg)] else ms.map fun w => (a, w))
  ++ ((sites.filter fun w =>
        decide (¬ ∃ a ∈ ads, a.date = w.date ∧ a.campaign_name = w.campaign_name)).map
      fun w => (defaultAdAgg, w))

/-- The SELECT list of the attribution query (google_ads_sync.py lines
247-259).  With default-filled join columns nothing is `NULL`, so each
`coalesce` returns its first argument, and the three ratios use their
guarded-division form on the raw `gac`/`wc` columns. -/
def mkAttribRow (a : AdAgg) (w : SiteAgg) : AttribRow :=
  { date := a.date
  , campaign_name := a.campaign_name
  , ad_clicks := a.ad_clicks
  , ad_spend := a.ad_spend
  , website_users := w.unique_users
  , website_revenue := w.website_revenue
  , website_conversions := w.conversions
  , roas := if 0 < a.ad_spend then w.website_revenue / a.ad_spend else 0
  , cost_per_conversion := if 0 < w.conversions then a.ad_spend / (w.conversions : ℚ) else 0
  , click_to_visit_rate := if 0 < a.ad_clicks then (w.unique_users : ℚ) / (a.ad_clicks : ℚ) * 100 else 0 }

/-- The `ORDER BY date DESC, roas DESC` relation of the attribution
query. -/
def attribOrder (x y : AttribRow) : Prop :=
  y.date < x.date ∨ (x.date = y.date ∧ y.roas ≤ x.roas)

instance : DecidableRel attribOrder := fun x y => by
  unfold attribOrder; infer_instance

/-- `GoogleAdsSync.sync_attribution_data` (google_ads_sync.py lines
215-284): build both aggregates, full-outer-join them, compute the guarded
ratios, keep rows with `ad_spend > 0 OR website_revenue > 0`, and order by
date then roas descending.  The resulting rows are bulk-inserted into
`analytics.attribution_summary`. -/
def sync_attribution_data (today : Int) (perf : List GoogleAdsPerfRow)
    (events : List CleanedEvent) : List AttribRow :=
  List.insertionSort attribOrder
    (((fullOuterPairs (google_ads_clicks today perf) (website_conversions today events)).map
        fun p => mkAttribRow p.1 p.2).filter
      fun r => decide (0 < r.ad_spend ∨ 0 < r.website_revenue))

example : pyRound ((2500000 : ℚ) / 1000000) 2 = 5/2 := by with_unfolding_all decide
example : pyRound ((523 : ℚ) / 10000 * 100) 4 = 523/100 := by with_unfolding_all decide
example : pyRound ((1 : ℚ) / 40) 2 = 2/100 := by with_unfolding_all decide
example : pyRound ((3 : ℚ) / 40) 2 = 8/100 := by with_unfolding_all decide

/-- One `analytics.user_profiles` row as written by
`ClickHouseManager.identify_user` (main.py lines 297-308). -/
structure ProfileRow where
  user_id : String
  anonymous_ids : List String
  first_seen : Int
  last_seen : Int
  created_at : Int
  updated_at : Int
deriving DecidableEq

/-- Modelled from the spec: the `analytics.user_profiles` table declaration
is repository code not under `src/`.  Spec 6 gives the storage collaborator
`upsert(key, row)`/`replaceOnConflict` semantics with a timestamp column
for last-write-wins, and spec 4.4 describes the profile write as an upsert
of the association; so inserting a row whose `(user_id, anonymous_ids)`
association is already present replaces that row, and a new association is
appended. -/
def upsertProfile (row : ProfileRow) (profiles : List ProfileRow) : List ProfileRow :=
  if profiles.any fun r => decide (r.user_id = row.user_id ∧ r.anonymous_ids = row.anonymous_ids) then
    profiles.map fun r =>
      if r.user_id = row.user_id ∧ r.anonymous_ids = row.anonymous_ids then row else r
  else profiles ++ [row]

/-- The storage state the Identity Resolver touches: the events table and
the user-profiles table. -/
structure Store where
  events : List CleanedEvent
  profiles : List ProfileRow
deriving DecidableEq

/-- `ClickHouseManager.identify_user` (main.py lines 293-321): write the
profile row for `(user_id, [anonymous_id])` with fresh `now64()`
timestamps, then `ALTER TABLE ... UPDATE user_id = :u WHERE anonymous_id =
:a AND user_id = ''` over the events table. -/
def identify_user (now : Int) (user_id anonymous_id : String) (st : Store) : Store :=
  { profiles := upsertProfile ⟨user_id, [anonymous_id], now, now, now, now⟩ st.profiles
  , events := st.events.map fun e =>
      if e.anonymous_id = anonymous_id ∧ e.user_id = "" then
        { e with user_id := user_id }
      else e }

/-- The association content of the profiles table: one `(user_id,
anonymous_id)` pair per array element per row. -/
def profileAssociations (ps : List ProfileRow) : List (String × String) :=
  ps.flatMap fun r => r.anonymous_ids.map fun a => (r.user_id, a)

/-- A `CleanedEvent` with its `user_id` blanked, for frame conditions:
two events agree on it exactly when they agree on every column other than
`user_id`. -/
def eraseUid (e : CleanedEvent) : CleanedEvent := { e with user_id := "" }

/-- The spec's notion of a dotted-quad IPv4 address (spec 4.1/8): exactly
four dot-separated octets, each a nonempty run of decimal digits whose
value is in [0, 255]. -/
def isDottedQuadSpec (s : String) : Bool :=
  decide ((splitDot s.data).length = 4) &&
  (splitDot s.data).all fun p =>
    decide (p ≠ []) && p.all isDigitChar && decide (digitsToNat p ≤ 255)

/-- The acceptance set `validate_ip_address` actually implements: already
`"0.0.0.0"`, or exactly four dot-separated parts each of which Python
`int` parses to a value in [0, 255] (so surrounding whitespace, one sign
character, underscore digit grouping, and non-ASCII Unicode decimal digits
are also accepted inside each part). -/
def pyQuadOk (s : String) : Bool :=
  decide (s = "0.0.0.0") ||
  (decide ((splitDot s.data).length = 4) &&
   (splitDot s.data).all fun p =>
     match pyIntL p with
     | some n => decide (0 ≤ n) && decide (n ≤ 255)
     | none => false)

/-- Filter commutes with a character map that preserves the predicate. -/
theorem filterMapSwap {f : Char → Char} {p : Char → Bool} (hp : ∀ c, p (f c) = p c) :
    ∀ l : List Char, (l.filter p).map f = (l.map f).filter p := by
  intro l
  induction l with
  | nil => rfl
  | cons c rest ih =>
    simp only [List.map_cons, List.filter_cons, hp c]
    by_cases h : p c = true
    · simp [h, ih]
    · simp [h, ih]

/-- dropWhile commutes with a character map that preserves the predicate. -/
theorem dropWhileMapSwap {f : Char → Char} {p : Char → Bool} (hp : ∀ c, p (f c) = p c) :
    ∀ l : List Char, (l.dropWhile p).map f = (l.map f).dropWhile p := by
  intro l
  induction l with
  | nil => rfl
  | cons c rest ih =>
    simp only [List.map_cons, List.dropWhile_cons, hp c]
    by_cases h : p c = true
    · simp [h, ih]
    · simp [h]

/-- `Char.ofNat` of a valid code point reads back the code point. -/
theorem toNat_ofNat_valid {n : Nat} (h : n.isValidChar) : (Char.ofNat n).toNat = n := by
  unfold Char.ofNat
  rw [dif_pos h]
  rfl

/-- Lowercasing preserves membership in the kept-character set of
`clean_string` (uppercase and lowercase letters are all printable). -/
theorem keep_toLower (c : Char) : keepChar c.toLower = keepChar c := by
  show keepChar (if c.toNat ≥ 65 ∧ c.toNat ≤ 90 then Char.ofNat (c.toNat + 32) else c)
    = keepChar c
  by_cases hr : c.toNat ≥ 65 ∧ c.toNat ≤ 90
  · rw [if_pos hr]
    have hv : (c.toNat + 32).isValidChar := Or.inl (by omega)
    have h1 : keepChar (Char.ofNat (c.toNat + 32)) = true := by
      apply decide_eq_true
      exact Or.inl (by rw [toNat_ofNat_valid hv]; omega)
    have h2 : keepChar c = true := decide_eq_true (Or.inl (by omega))
    rw [h1, h2]
  · rw [if_neg hr]

/-- No character with code point in [48, 122] (digits, letters) is
whitespace. -/
theorem space_lowercase_range (x : Char) (h1 : 48 ≤ x.toNat) (h2 : x.toNat ≤ 122) :
    pySpaceChar x = false := by
  apply decide_eq_false
  intro hmem
  have h3 := List.mem_map_of_mem Char.toNat hmem
  simp only [List.map_cons, List.map_nil, List.mem_cons, List.not_mem_nil, or_false] at h3
  rcases h3 with h|h|h|h|h|h|h|h|h|h|h|h|h|h|h|h|h|h|h|h|h|h|h|h|h|h|h|h|h <;>
    rw [h] at h1 h2 <;>
    first
      | exact absurd h1 (by decide)
      | exact absurd h2 (by decide)

/-- Lowercasing preserves the whitespace predicate (no whitespace character
is an ASCII letter). -/
theorem space_toLower (c : Char) : pySpaceChar c.toLower = pySpaceChar c := by
  show pySpaceChar (if c.toNat ≥ 65 ∧ c.toNat ≤ 90 then Char.ofNat (c.toNat + 32) else c)
    = pySpaceChar c
  by_cases hr : c.toNat ≥ 65 ∧ c.toNat ≤ 90
  · rw [if_pos hr]
    have hv : (c.toNat + 32).isValidChar := Or.inl (by omega)
    have hup : pySpaceChar c = false := by
      apply decide_eq_false
      intro hmem
      have h3 := List.mem_map_of_mem Char.toNat hmem
      simp only [List.map_cons, List.map_nil, List.mem_cons, List.not_mem_nil, or_false] at h3
      rcases h3 with h|h|h|h|h|h|h|h|h|h|h|h|h|h|h|h|h|h|h|h|h|h|h|h|h|h|h|h|h <;>
        rw [h] at hr <;>
        first
          | exact absurd hr.1 (by decide)
          | exact absurd hr.2 (by decide)
    rw [hup]
    apply space_lowercase_range
    · rw [toNat_ofNat_valid hv]; omega
    · rw [toNat_ofNat_valid hv]; omega

  · rw [if_neg hr]

/-- Lowercasing commutes with stripping. -/
theorem pyLowerL_pyStripL (l : List Char) : pyLowerL (pyStripL l) = pyStripL (pyLowerL l) := by
  unfold pyLowerL pyStripL
  rw [List.map_reverse, dropWhileMapSwap space_toLower, List.map_reverse,
    dropWhileMapSwap space_toLower]

/-- A substring all of whose characters pass the filter survives the
filter. -/
theorem infixOfFilter {p : Char → Bool} {ind l : List Char} (hfix : ind.filter p = ind)
    (h : ind <:+: l) : ind <:+: l.filter p := by
  rcases h with ⟨s, t, rfl⟩
  exact ⟨s.filter p, t.filter p, by rw [List.filter_append, List.filter_append, hfix]⟩

/-- A nonempty substring none of whose characters satisfies `p` survives
`dropWhile p`, stated over an explicit decomposition. -/
theorem infixOfDropWhileAux {p : Char → Bool} {ind : List Char} (hne : ind ≠ [])
    (hnp : ∀ c ∈ ind, p c = false) :
    ∀ s t : List Char, ind <:+: (s ++ (ind ++ t)).dropWhile p := by
  intro s t
  induction s with
  | nil =>
    cases ind with
    | nil => exact absurd rfl hne
    | cons c cs =>
      rw [List.nil_append, List.cons_append, List.dropWhile_cons,
        if_neg (by rw [hnp c (List.mem_cons_self c cs)]; simp)]
      exact ⟨[], t, by simp⟩
  | cons a s ih =>
    rw [List.cons_append, List.dropWhile_cons]
    by_cases h : p a = true
    · rw [if_pos h]; exact ih
    · rw [if_neg h]; exact ⟨a :: s, t, by simp⟩

/-- A nonempty substring none of whose characters satisfies `p` survives
`dropWhile p`. -/
theorem infixOfDropWhile {p : Char → Bool} {ind l : List Char} (hne : ind ≠ [])
    (hnp : ∀ c ∈ ind, p c = false) (h : ind <:+: l) : ind <:+: l.dropWhile p := by
  rcases h with ⟨s, t, rfl⟩
  simpa [List.append_assoc] using infixOfDropWhileAux hne hnp s t

/-- A nonempty non-whitespace substring survives `str.strip()`. -/
theorem infixOfPyStrip {ind l : List Char} (hne : ind ≠ [])
    (hnp : ∀ c ∈ ind, pySpaceChar c = false) (h : ind <:+: l) : ind <:+: pyStripL l := by
  unfold pyStripL
  have h1 := infixOfDropWhile hne hnp h
  have h2 : ind.reverse <:+: (l.dropWhile pySpaceChar).reverse := List.reverse_infix.mpr h1
  have h3 : ind.reverse <:+: ((l.dropWhile pySpaceChar).reverse.dropWhile pySpaceChar) :=
    infixOfDropWhile (by simpa using hne) (by intro c hc; exact hnp c (List.mem_reverse.mp hc)) h2
  have h4 := List.reverse_infix.mpr h3
  simpa using h4

/-- Nothing in the bot denylist is empty, contains control characters, or
contains whitespace. -/
theorem botIndicatorFacts : ∀ ind ∈ bot_indicators,
    ind.data ≠ [] ∧ ind.data.filter keepChar = ind.data ∧
    ∀ c ∈ ind.data, pySpaceChar c = false := by decide

/-- A denylisted substring of the lowercased raw user agent is still a
substring of the lowercased cleaned user agent, because its characters are
neither control characters nor whitespace and a boundary-valid user agent
is at most 1000 characters, making the truncation a no-op. -/
theorem detect_after_clean {ua ind : String} (hmem : ind ∈ bot_indicators)
    (hlen : ua.data.length ≤ 1000) (h : ind.data <:+: pyLowerL ua.data) :
    detect_bot_traffic (clean_string ua 1000) = true := by
  obtain ⟨hne, hfix, hsp⟩ := botIndicatorFacts ind hmem
  by_cases hv : ua = ""
  · subst hv
    have h0 : List.Sublist ind.data ([] : List Char) := by
      simpa [pyLowerL, show ("" : String).data = [] from rfl] using h.sublist
    exact absurd (List.sublist_nil.mp h0) hne
  · have h1 : ind.data <:+: (pyLowerL ua.data).filter keepChar := infixOfFilter hfix h
    have e1 : (pyLowerL ua.data).filter keepChar = pyLowerL (ua.data.filter keepChar) :=
      (filterMapSwap keep_toLower ua.data).symm
    have e2 : (ua.data.filter keepChar).take 1000 = ua.data.filter keepChar :=
      List.take_of_length_le (le_trans (List.length_filter_le _ _) hlen)
    have h2 : ind.data <:+: pyStripL (pyLowerL ((ua.data.filter keepChar).take 1000)) := by
      rw [e2, ← e1]
      exact infixOfPyStrip hne hsp h1
    have h3 : ind.data <:+: pyLowerL (pyStripL ((ua.data.filter keepChar).take 1000)) := by
      rw [pyLowerL_pyStripL]
      exact h2
    have hclean : clean_string ua 1000
        = String.mk (pyStripL ((ua.data.filter keepChar).take 1000)) := by
      unfold clean_string
      rw [if_neg hv]
    have hdata : (clean_string ua 1000).data = pyStripL ((ua.data.filter keepChar).take 1000) := by
      rw [hclean]
    have hnonempty : clean_string ua 1000 ≠ "" := by
      intro habs
      have e : pyStripL ((ua.data.filter keepChar).take 1000) = [] := by
        rw [← hdata, habs]
      rw [e] at h3
      have h0 : List.Sublist ind.data ([] : List Char) := by
        simpa [pyLowerL] using h3.sublist
      exact absurd (List.sublist_nil.mp h0) hne
    unfold detect_bot_traffic
    rw [if_neg hnonempty]
    exact List.any_eq_true.mpr ⟨ind, hmem, decide_eq_true (by rw [hdata]; exact h3)⟩

/-- Each loop iteration of `insert_events` appends exactly the processed
event, and never a rejection (every cleaning step is total). -/
theorem insertStep_eq (acc : BatchResult) (e : EventData) :
    insertStep acc e = { acc with stored := acc.stored ++ [processEvent e] } := rfl

/-- `insert_events` stores every event of the batch, in order, processed by
`processEvent`, and reports no rejections. -/
theorem insert_events_eq (events : List EventData) :
    insert_events events = ⟨events.map processEvent, []⟩ := by
  unfold insert_events
  suffices h : ∀ acc : BatchResult,
      List.foldl insertStep acc events = ⟨acc.stored ++ events.map processEvent, acc.rejections⟩ by
    simpa using h ⟨[], []⟩
  induction events with
  | nil => intro acc; simp
  | cons e rest ih =>
    intro acc
    rw [List.foldl_cons, insertStep_eq, ih]
    simp

/-- `dropWhile` is the identity when no element satisfies the predicate. -/
theorem dropWhile_eq_self_of_all {p : Char → Bool} :
    ∀ {l : List Char}, (∀ c ∈ l, p c = false) → l.dropWhile p = l
  | [], _ => rfl
  | c :: cs, h => by
    rw [List.dropWhile_cons, if_neg (by rw [h c (List.mem_cons_self c cs)]; simp)]

/-- Stripping a string with no whitespace characters is the identity. -/
theorem pyStripL_eq_self {l : List Char} (h : ∀ c ∈ l, pySpaceChar c = false) :
    pyStripL l = l := by
  unfold pyStripL
  rw [dropWhile_eq_self_of_all h,
    dropWhile_eq_self_of_all (fun c hc => h c (List.mem_reverse.mp hc)),
    List.reverse_reverse]

/-- An ASCII digit's decimal value under the Unicode digit table: the ASCII
block is the first entry of `ndDigitZeros`. -/
theorem decDigitVal_ascii {c : Char} (h : 48 ≤ c.toNat ∧ c.toNat ≤ 57) :
    decDigitVal? c = some (c.toNat - 48) := by
  unfold decDigitVal? ndDigitZeros
  rw [List.find?_cons_of_pos]
  · rfl
  · have h1 : (48 : Nat) ≤ c.toNat := h.1
    have h2 : c.toNat ≤ 48 + 9 := by omega
    simp [h1, h2]

/-- An ASCII digit is a Unicode decimal digit. -/
theorem isDecDigit_of_ascii {c : Char} (h : isDigitChar c = true) : isDecDigit c = true := by
  unfold isDecDigit
  rw [decDigitVal_ascii (of_decide_eq_true h)]
  rfl

/-- Python `int` accepts a plain nonempty run of ASCII decimal digits and
returns its decimal value. -/
theorem pyIntL_of_digits {p : List Char} (hne : p ≠ [])
    (hd : ∀ c ∈ p, isDigitChar c = true) : pyIntL p = some ((digitsToNat p : Int)) := by
  have hsp : ∀ c ∈ p, pySpaceChar c = false := by
    intro c hc
    have hb := of_decide_eq_true (hd c hc)
    exact space_lowercase_range c (by omega) (by omega)
  have hstrip : pyStripL p = p := pyStripL_eq_self hsp
  unfold pyIntL
  rw [hstrip]
  cases p with
  | nil => exact absurd rfl hne
  | cons c cs =>
    have hdec : ∀ x ∈ c :: cs, isDecDigit x = true := fun x hx => isDecDigit_of_ascii (hd x hx)
    have hdc := of_decide_eq_true (hd c (List.mem_cons_self c cs))
    have hplus : ¬ c = '+' := by
      intro h
      rw [h] at hdc
      exact absurd hdc (by decide)
    have hminus : ¬ c = '-' := by
      intro h
      rw [h] at hdc
      exact absurd hdc (by decide)
    have hall : (c :: cs).all (fun x => isDecDigit x || x = '_') = true :=
      List.all_eq_true.mpr fun x hx => by rw [hdec x hx]; simp
    have hlast : (match (c :: cs).getLast? with
        | some x => isDecDigit x | none => false) = true := by
      rw [List.getLast?_eq_getLast (c :: cs) (List.cons_ne_nil c cs)]
      exact hdec _ (List.getLast_mem (List.cons_ne_nil c cs))
    have hinf : ¬ (['_', '_'] <:+: (c :: cs)) := by
      intro h
      have hu : ('_' : Char) ∈ c :: cs := h.subset (by decide)
      exact absurd (of_decide_eq_true (hd '_' hu)) (by decide)
    have hok : pyDigitsOk (c :: cs) = true := by
      unfold pyDigitsOk
      rw [hall, hlast, List.head?_cons]
      simp [hdec c (List.mem_cons_self c cs), hinf]
    simp only [pyIntBody]
    rw [if_neg hplus, if_neg hminus, if_pos hok,
      List.filter_eq_self.mpr hdec]

/-- C6 counterexample input: Python `int` accepts a leading sign, so
`"+1.2.3.4"` passes `validate_ip_address` unchanged although it is not a
dotted-quad address. -/
theorem C6_counterexample :
    validate_ip_address "+1.2.3.4" = "+1.2.3.4"
    ∧ isDottedQuadSpec "+1.2.3.4" = false
    ∧ ("+1.2.3.4" : String) ≠ "0.0.0.0" := by decide

/-- C6 (amended): `validate_ip_address` returns its input unchanged exactly
on `"0.0.0.0"` and on strings splitting on `'.'` into four parts that each
parse under Python `int` rules (optional surrounding whitespace, one
optional sign, an underscore-grouped run of Unicode decimal digits) to a
value in [0, 255]; every other input maps to `"0.0.0.0"` and nothing is
ever dropped or raised.  Strict dotted-quads are inside the accepted set,
so they are returned unchanged. -/
theorem C6_validate_ip : ∀ ip : String,
    (pyQuadOk ip = true → validate_ip_address ip = ip)
    ∧ (pyQuadOk ip = false → validate_ip_address ip = "0.0.0.0")
    ∧ (isDottedQuadSpec ip = true → pyQuadOk ip = true) := by
  intro ip
  by_cases hz : ip = "0.0.0.0"
  · subst hz
    exact ⟨fun _ => by decide, fun hq => absurd hq (by decide), fun _ => by decide⟩
  · have hqeq : pyQuadOk ip = (decide ((splitDot ip.data).length = 4) &&
        (splitDot ip.data).all fun p =>
          match pyIntL p with
          | some n => decide (0 ≤ n) && decide (n ≤ 255)
          | none => false) := by
      unfold pyQuadOk
      rw [decide_eq_false hz, Bool.false_or]
    refine ⟨?_, ?_, ?_⟩
    · intro hq
      rw [hqeq] at hq
      simp only [Bool.and_eq_true] at hq
      rcases hq with ⟨h4b, hallb⟩
      have h4 := of_decide_eq_true h4b
      have hnonempty : ip ≠ "" := by
        intro he
        rw [he] at h4
        exact absurd h4 (by decide)
      unfold validate_ip_address
      rw [if_neg (by simp [hnonempty, hz]), if_neg (by simp [h4]), if_pos hallb]
    · intro hq
      rw [hqeq] at hq
      by_cases he : ip = ""
      · unfold validate_ip_address
        rw [if_pos (Or.inl he)]
      · unfold validate_ip_address
        rw [if_neg (by simp [he, hz])]
        rcases Bool.and_eq_false_iff.mp hq with h4 | hall
        · rw [if_pos (by simpa using h4)]
        · by_cases h4 : (splitDot ip.data).length = 4
          · rw [if_neg (by simp [h4]), if_neg (by simp [hall])]
          · rw [if_pos (by simp [h4])]
    · intro hspec
      unfold isDottedQuadSpec at hspec
      simp only [Bool.and_eq_true] at hspec
      rcases hspec with ⟨h4b, hallb⟩
      rw [hqeq, h4b, Bool.true_and]
      apply List.all_eq_true.mpr
      intro p hp
      have hpspec := List.all_eq_true.mp hallb p hp
      simp only [Bool.and_eq_true] at hpspec
      rcases hpspec with ⟨⟨hne, hdig⟩, h255⟩
      rw [pyIntL_of_digits (of_decide_eq_true hne) (List.all_eq_true.mp hdig)]
      have hv := of_decide_eq_true h255
      simp [hv]

/-- C6 witness: a strict dotted-quad flows through the amended theorem. -/
theorem C6_witness : validate_ip_address "192.168.0.1" = "192.168.0.1" :=
  (C6_validate_ip "192.168.0.1").1 (by decide)

/-- C7: `clean_string` removes exactly the characters with code point below
32 other than tab, newline and carriage return, truncates to `max_length`
code points, and trims surrounding whitespace; as a Lean function it is
total and deterministic for every string and bound, and in particular
`clean_string "a\x00b\x07c" 10 = "abc"`. -/
theorem C7_clean_string :
    (∀ (value : String) (maxLength : Nat),
      clean_string value maxLength
        = String.mk (pyStripL ((value.data.filter fun c =>
            !(decide (c.toNat < 32) &&
              !(decide (c = '\t') || decide (c = '\n') || decide (c = '\r')))).take maxLength)))
    ∧ clean_string "a\x00b\x07c" 10 = "abc" := by
  constructor
  · intro value maxLength
    unfold clean_string
    by_cases hv : value = ""
    · subst hv
      rw [if_pos rfl, show ("" : String).data = [] from rfl, List.filter_nil, List.take_nil]
      decide
    · rw [if_neg hv]
      congr 2
      apply congrArg
      apply List.filter_congr
      intro c _
      unfold keepChar
      by_cases h32 : 32 ≤ c.toNat
      · simp [h32, Nat.not_lt.mpr h32]
      · have hlt : c.toNat < 32 := Nat.not_le.mp h32
        by_cases ht : c = '\t'
        · subst ht; decide
        · by_cases hn : c = '\n'
          · subst hn; decide
          · by_cases hr : c = '\r'
            · subst hr; decide
            · simp [h32, hlt, ht, hn, hr]
  · decide

/-- C8: the fetcher's unit normalization — `cost` and `avg_cpc` are the
micro-currency value divided by 1,000,000 rounded to 2 decimals, `ctr` is
the raw fraction times 100 rounded to 4 decimals, and every missing metric
is treated as 0 before arithmetic; 2,500,000 micros map to 2.50 and a raw
ctr of 0.0523 maps to 5.23. -/
theorem C8_unit_normalization :
    (∀ (ts : String) (r : AdsApiRow),
      (buildPerformanceRecord ts r).cost = pyRound (r.cost_micros.getD 0 / 1000000) 2
      ∧ (buildPerformanceRecord ts r).avg_cpc = pyRound (r.average_cpc.getD 0 / 1000000) 2
      ∧ (buildPerformanceRecord ts r).ctr = pyRound (r.ctr.getD 0 * 100) 4
      ∧ (r.cost_micros = none → (buildPerformanceRecord ts r).cost = 0)
      ∧ (r.average_cpc = none → (buildPerformanceRecord ts r).avg_cpc = 0)
      ∧ (r.ctr = none → (buildPerformanceRecord ts r).ctr = 0)
      ∧ (r.impressions = none → (buildPerformanceRecord ts r).impressions = 0)
      ∧ (r.clicks = none → (buildPerformanceRecord ts r).clicks = 0)
      ∧ (r.conversions = none → (buildPerformanceRecord ts r).conversions = 0)
      ∧ (r.conversions_value = none → (buildPerformanceRecord ts r).conversion_value = 0)
      ∧ (r.quality_score = none → (buildPerformanceRecord ts r).quality_score = 0)
      ∧ (r.average_position = none → (buildPerformanceRecord ts r).avg_position = 0))
    ∧ pyRound ((2500000 : ℚ) / 1000000) 2 = 5/2
    ∧ pyRound ((523 : ℚ) / 10000 * 100) 4 = 523/100 := by
  refine ⟨?_, by with_unfolding_all decide, by with_unfolding_all decide⟩
  intro ts r
  refine ⟨rfl, rfl, rfl, ?_, ?_, ?_, ?_, ?_, ?_, ?_, ?_, ?_⟩ <;>
    intro h <;>
    simp only [buildPerformanceRecord, h, Option.getD_none] <;>
    with_unfolding_all decide

/-- A raw ads-platform row with every metric missing. -/
def adsRowNone : AdsApiRow :=
  ⟨"2024-01-01", 1, 2, "camp", 3, "grp", 4, "kw",
   none, none, none, none, none, none, none, none, none⟩

/-- C8 witness: the normalization at a concrete row with missing metrics. -/
theorem C8_witness :
    (buildPerformanceRecord "t" adsRowNone).cost = 0
    ∧ (buildPerformanceRecord "t" adsRowNone).ctr = 0
    ∧ (buildPerformanceRecord "t" adsRowNone).conversions = 0 :=
  ⟨(C8_unit_normalization.1 "t" adsRowNone).2.2.2.1 rfl,
   (C8_unit_normalization.1 "t" adsRowNone).2.2.2.2.2.1 rfl,
   (C8_unit_normalization.1 "t" adsRowNone).2.2.2.2.2.2.2.2.1 rfl⟩

/-- When the cleaned user agent trips the denylist, `processEvent` forces
the bot flag onto the cleaned row. -/
theorem processEvent_bot {e : EventData}
    (hb : detect_bot_traffic (clean_string e.user_agent 1000) = true) :
    processEvent e = { _clean_event e with is_valid := 0, validation_errors := "bot_traffic" } := by
  unfold processEvent
  rw [show (_clean_event e).user_agent = clean_string e.user_agent 1000 from rfl, hb]
  simp

/-- When the cleaned user agent is clean, `processEvent` is `_clean_event`. -/
theorem processEvent_clean {e : EventData}
    (hb : detect_bot_traffic (clean_string e.user_agent 1000) = false) :
    processEvent e = _clean_event e := by
  unfold processEvent
  rw [show (_clean_event e).user_agent = clean_string e.user_agent 1000 from rfl, hb]
  simp

/-- C9: for every boundary-valid raw event (user agent at most 1000
characters) whose lowercased user agent contains a denylisted automation
substring, the stored row has `is_valid = 0` and `validation_errors =
"bot_traffic"` — the bot flag overrides the otherwise-valid cleaning
outcome; and `"Mozilla/5.0 normal browser"` does not trip the denylist. -/
theorem C9_bot_flag :
    (∀ (e : EventData) (ind : String), ind ∈ bot_indicators →
      e.user_agent.data.length ≤ 1000 →
      ind.data <:+: pyLowerL e.user_agent.data →
      (processEvent e).is_valid = 0 ∧ (processEvent e).validation_errors = "bot_traffic")
    ∧ detect_bot_traffic "Mozilla/5.0 normal browser" = false := by
  constructor
  · intro e ind hmem hlen hinf
    rw [processEvent_bot (detect_after_clean hmem hlen hinf)]
    exact ⟨rfl, rfl⟩
  · decide

/-- A structurally valid event with neutral field values, used to
instantiate the universally quantified theorems. -/
def baseEvent : EventData :=
  { event_id := "e1"
  , event_time := 1728000000
  , event_type := "pageview"
  , user_id := ""
  , anonymous_id := "a1"
  , session_id := "s1"
  , visit_id := 1
  , device_fingerprint := "fp"
  , user_agent := "Mozilla/5.0"
  , ip_address := "1.2.3.4"
  , page_url := ""
  , page_title := ""
  , referrer_url := ""
  , utm_source := ""
  , utm_medium := ""
  , utm_campaign := ""
  , utm_content := ""
  , utm_term := ""
  , gclid := ""
  , gbraid := ""
  , wbraid := ""
  , revenue := 0
  , currency := "USD"
  , order_id := ""
  , product_id := ""
  , product_category := ""
  , quantity := 0
  , custom_properties := ""
  , session_start_time := none
  , session_duration := 0
  , page_views_in_session := 1
  , is_bounce := false }

/-- An event announcing itself as a bot. -/
def botEvent : EventData := { baseEvent with event_id := "eb", user_agent := "Googlebot/2.1" }

/-- C9 witness: the bot flag at a concrete crawler user agent. -/
theorem C9_witness :
    (processEvent botEvent).is_valid = 0
    ∧ (processEvent botEvent).validation_errors = "bot_traffic" :=
  C9_bot_flag.1 botEvent "bot" (by decide) (by decide) (by decide)

/-- C10: every stored row has `validation_errors` empty or exactly
`"bot_traffic"`, and `is_valid = 0` exactly when bot traffic was detected
on the cleaned user agent; an event stale by more than 7 days with a clean
user agent is still stored with `is_valid = 1` and empty
`validation_errors` — staleness only ever produces a warning log. -/
theorem C10_invariant :
    ∀ (now : Int) (evs : List EventData) (e : EventData), e ∈ evs →
      processEvent e ∈ (insert_events evs).stored
      ∧ ((processEvent e).validation_errors = "" ∨ (processEvent e).validation_errors = "bot_traffic")
      ∧ ((processEvent e).is_valid = 0 ↔ detect_bot_traffic (clean_string e.user_agent 1000) = true)
      ∧ (7 < (now - e.event_time).ediv 86400 →
          detect_bot_traffic (clean_string e.user_agent 1000) = false →
          (processEvent e).is_valid = 1 ∧ (processEvent e).validation_errors = "") := by
  intro now evs e he
  refine ⟨?_, ?_, ?_, ?_⟩
  · rw [insert_events_eq]
    exact List.mem_map_of_mem processEvent he
  · by_cases hb : detect_bot_traffic (clean_string e.user_agent 1000) = true
    · rw [processEvent_bot hb]; exact Or.inr rfl
    · rw [processEvent_clean (Bool.not_eq_true _ ▸ hb)]; exact Or.inl rfl
  · by_cases hb : detect_bot_traffic (clean_string e.user_agent 1000) = true
    · rw [processEvent_bot hb]
      exact ⟨fun _ => hb, fun _ => rfl⟩
    · rw [processEvent_clean (Bool.not_eq_true _ ▸ hb)]
      constructor
      · intro h1
        have h2 : (_clean_event e).is_valid = 1 := rfl
        omega
      · intro h
        exact absurd h hb
  · intro _ hclean
    rw [processEvent_clean hclean]
    exact ⟨rfl, rfl⟩

/-- An event 10 days in the past. -/
def staleEvent : EventData := { baseEvent with event_id := "es", event_time := 1728000000 - 864000 }

/-- C10 witness: the stale event is stored valid with no error string. -/
theorem C10_witness :
    (processEvent staleEvent).is_valid = 1 ∧ (processEvent staleEvent).validation_errors = "" :=
  (C10_invariant 1728000000 [staleEvent] staleEvent (List.mem_singleton.mpr rfl)).2.2.2
    (by decide) (by decide)

/-- A future-dated event fails pydantic validation regardless of its other
fields. -/
theorem parseEvent_future {now : Int} {e : EventData} (h : endOfToday now < e.event_time) :
    ∃ m, parseEvent now e = Except.error m := by
  unfold parseEvent
  by_cases hs : structuralOk e = false
  · rw [if_pos hs]
    exact ⟨"validation error", rfl⟩
  · rw [if_neg hs]
    unfold validate_event_time
    rw [if_pos h]
    exact ⟨"Event time cannot be in the future", rfl⟩

/-- C1 (amended): the future-time check is a pydantic model validator, so
it fires while FastAPI parses the batch: a 3-event batch whose event #2 has
a future `event_time` is rejected wholesale with HTTP 422 — no
CanonicalEvent is stored and no per-event `(event_id, error)` pair is
reported, because `insert_events` never runs.  Per-event isolation inside
`insert_events` only covers exceptions raised while cleaning an
already-validated event, and cleaning is total. -/
theorem C1_batch : ∀ (now : Int) (e1 e2 e3 : EventData),
    endOfToday now < e2.event_time →
    collect_events now [e1, e2, e3] = ⟨[], [], true⟩ := by
  intro now e1 e2 e3 h
  obtain ⟨m, hm⟩ := parseEvent_future h
  unfold collect_events
  rw [if_neg (by simp)]
  cases hp1 : parseEvent now e1 with
  | error m1 => simp [parseBatchEvents, hp1]
  | ok e1x => simp [parseBatchEvents, hp1, hm]

/-- An event dated 30 days into the future. -/
def futureEvent : EventData :=
  { baseEvent with event_id := "e2", event_time := 1728000000 + 2592000 }

/-- C1 counterexample: on the concrete batch `[ok, future, ok]` the
pipeline stores nothing and reports no per-event rejection — not the
claimed 2 stored rows and 1 rejection. -/
theorem C1_counterexample :
    collect_events 1728000000 [baseEvent, futureEvent, staleEvent] = ⟨[], [], true⟩
    ∧ ¬((collect_events 1728000000 [baseEvent, futureEvent, staleEvent]).stored.length = 2
        ∧ (collect_events 1728000000 [baseEvent, futureEvent, staleEvent]).rejections.length = 1) := by
  with_unfolding_all decide

/-- C1 witness: the amended theorem at the concrete batch. -/
theorem C1_witness :
    collect_events 1728000000 [baseEvent, futureEvent, staleEvent] = ⟨[], [], true⟩ :=
  C1_batch 1728000000 baseEvent futureEvent staleEvent (by decide)

/-- `flatMap` respects pointwise equality on the list's members. -/
theorem flatMap_congr_mem {α β : Type} {f g : α → List β} :
    ∀ {l : List α}, (∀ x ∈ l, f x = g x) → l.flatMap f = l.flatMap g
  | [], _ => rfl
  | a :: t, h => by
    rw [List.flatMap_cons, List.flatMap_cons, h a (List.mem_cons_self a t),
      flatMap_congr_mem (fun x hx => h x (List.mem_cons_of_mem a hx))]

/-- `flatMap` over a mapped list. -/
theorem flatMap_map_eq {α β : Type} (f : α → α) (g : α → List β) :
    ∀ l : List α, (l.map f).flatMap g = l.flatMap (fun x => g (f x))
  | [] => rfl
  | a :: t => by
    rw [List.map_cons, List.flatMap_cons, List.flatMap_cons, flatMap_map_eq f g t]

/-- C4: the profile write is idempotent on the stored associations —
identifying the same `(user_id, anonymous_id)` pair twice (at any two
times) leaves exactly the association state of identifying it once; the
second upsert only refreshes timestamps on the same association row. -/
theorem C4_identify_idempotent : ∀ (n1 n2 : Int) (u a : String) (st : Store),
    profileAssociations (identify_user n2 u a (identify_user n1 u a st)).profiles
      = profileAssociations (identify_user n1 u a st).profiles := by
  intro n1 n2 u a st
  have hp1 : (identify_user n1 u a st).profiles
      = upsertProfile ⟨u, [a], n1, n1, n1, n1⟩ st.profiles := rfl
  have hexists : ∃ r ∈ (identify_user n1 u a st).profiles,
      r.user_id = u ∧ r.anonymous_ids = [a] := by
    rw [hp1]
    unfold upsertProfile
    by_cases hany : (st.profiles.any fun r =>
        decide (r.user_id = u ∧ r.anonymous_ids = [a])) = true
    · rw [if_pos hany]
      obtain ⟨r0, hr0, hc⟩ := List.any_eq_true.mp hany
      refine ⟨⟨u, [a], n1, n1, n1, n1⟩, ?_, rfl, rfl⟩
      refine List.mem_map.mpr ⟨r0, hr0, ?_⟩
      rw [if_pos (of_decide_eq_true hc)]
    · rw [if_neg hany]
      exact ⟨⟨u, [a], n1, n1, n1, n1⟩,
        List.mem_append_right _ (List.mem_singleton.mpr rfl), rfl, rfl⟩
  obtain ⟨r1, hr1, hru, hra⟩ := hexists
  have hany2 : ((identify_user n1 u a st).profiles.any fun r =>
      decide (r.user_id = u ∧ r.anonymous_ids = [a])) = true :=
    List.any_eq_true.mpr ⟨r1, hr1, decide_eq_true ⟨hru, hra⟩⟩
  have houter : (identify_user n2 u a (identify_user n1 u a st)).profiles
      = upsertProfile ⟨u, [a], n2, n2, n2, n2⟩ (identify_user n1 u a st).profiles := rfl
  rw [houter]
  unfold upsertProfile
  rw [if_pos hany2]
  unfold profileAssociations
  rw [flatMap_map_eq]
  apply flatMap_congr_mem
  intro r hr
  by_cases hc : r.user_id = u ∧ r.anonymous_ids = [a]
  · rw [if_pos hc, hc.1, hc.2]
  · rw [if_neg hc]

/-- C5: the identity backfill touches exactly the rows with the given
`anonymous_id` and empty `user_id`, setting only their `user_id`; every
already-attributed row and every non-`user_id` column of every row is left
unchanged, and no row is added or removed. -/
theorem C5_backfill_scope : ∀ (now : Int) (u a : String) (st : Store),
    (identify_user now u a st).events.length = st.events.length
    ∧ ∀ (i : Nat) (h : i < st.events.length)
        (h2 : i < (identify_user now u a st).events.length),
        eraseUid ((identify_user now u a st).events.get ⟨i, h2⟩)
          = eraseUid (st.events.get ⟨i, h⟩)
        ∧ (((st.events.get ⟨i, h⟩).anonymous_id = a ∧ (st.events.get ⟨i, h⟩).user_id = "") →
            ((identify_user now u a st).events.get ⟨i, h2⟩).user_id = u)
        ∧ (¬((st.events.get ⟨i, h⟩).anonymous_id = a ∧ (st.events.get ⟨i, h⟩).user_id = "") →
            ((identify_user now u a st).events.get ⟨i, h2⟩).user_id
              = (st.events.get ⟨i, h⟩).user_id) := by
  intro now u a st
  have hev : (identify_user now u a st).events = st.events.map (fun e =>
      if e.anonymous_id = a ∧ e.user_id = "" then { e with user_id := u } else e) := rfl
  constructor
  · rw [hev, List.length_map]
  · intro i h h2
    have hget : (identify_user now u a st).events.get ⟨i, h2⟩
        = (if (st.events.get ⟨i, h⟩).anonymous_id = a ∧ (st.events.get ⟨i, h⟩).user_id = ""
            then { st.events.get ⟨i, h⟩ with user_id := u } else st.events.get ⟨i, h⟩) := by
      simp only [hev, List.get_eq_getElem, List.getElem_map]
    by_cases hc : (st.events.get ⟨i, h⟩).anonymous_id = a ∧ (st.events.get ⟨i, h⟩).user_id = ""
    · rw [hget, if_pos hc]
      exact ⟨rfl, fun _ => rfl, fun hn => absurd hc hn⟩
    · rw [hget, if_neg hc]
      exact ⟨rfl, fun hp => absurd hp hc, fun _ => rfl⟩

/-- A stored canonical row with empty `user_id` under anonymous id `a1`. -/
def baseRow : CleanedEvent :=
  ⟨"x1", 1728000000, "pageview", "", "a1", "s1", 1, "fp", "ua", "1.2.3.4",
   "", "", "", "", "", "", "", "", "", "", "", 0, "USD", "", "", "", 0, "",
   1728000000, 0, 1, 0, 1, ""⟩

/-- A stored canonical row already attributed to user `u9` under the same
anonymous id. -/
def rowAttributed : CleanedEvent := { baseRow with event_id := "x2", user_id := "u9" }

/-- The two-row store of the spec's backfill-scoping test. -/
def stW : Store := ⟨[baseRow, rowAttributed], []⟩

/-- C5 witness: identify(u2, a1) on the two-row store updates only the
unattributed row and leaves `u9` untouched. -/
theorem C5_witness :
    ((identify_user 0 "u2" "a1" stW).events.get ⟨0, by decide⟩).user_id = "u2"
    ∧ ((identify_user 0 "u2" "a1" stW).events.get ⟨1, by decide⟩).user_id = "u9" :=
  ⟨((C5_backfill_scope 0 "u2" "a1" stW).2 0 (by decide) (by decide)).2.1 (by decide),
   ((C5_backfill_scope 0 "u2" "a1" stW).2 1 (by decide) (by decide)).2.2 (by decide)⟩

/-- Every row of the attribution output is `mkAttribRow` of a join pair
that passed the spend-or-revenue filter. -/
theorem sync_row_source {today : Int} {perf : List GoogleAdsPerfRow}
    {events : List CleanedEvent} {r : AttribRow}
    (h : r ∈ sync_attribution_data today perf events) :
    ∃ p ∈ fullOuterPairs (google_ads_clicks today perf) (website_conversions today events),
      r = mkAttribRow p.1 p.2 := by
  unfold sync_attribution_data at h
  rw [(List.perm_insertionSort attribOrder _).mem_iff] at h
  have h2 := (List.mem_filter.mp h).1
  obtain ⟨p, hp, he⟩ := List.mem_map.mp h2
  exact ⟨p, hp, he.symm⟩

/-- A join pair whose row passes the `WHERE` filter appears in the
attribution output. -/
theorem mem_sync_of_pair {today : Int} {perf : List GoogleAdsPerfRow}
    {events : List CleanedEvent} {p : AdAgg × SiteAgg}
    (hp : p ∈ fullOuterPairs (google_ads_clicks today perf) (website_conversions today events))
    (hf : 0 < (mkAttribRow p.1 p.2).ad_spend ∨ 0 < (mkAttribRow p.1 p.2).website_revenue) :
    mkAttribRow p.1 p.2 ∈ sync_attribution_data today perf events := by
  unfold sync_attribution_data
  rw [(List.perm_insertionSort attribOrder _).mem_iff]
  exact List.mem_filter.mpr ⟨List.mem_map_of_mem _ hp, decide_eq_true hf⟩

/-- An ad aggregate with no matching site aggregate joins against the
default-filled site side. -/
theorem adOnly_pair {ads : List AdAgg} {sites : List SiteAgg} {a : AdAgg}
    (ha : a ∈ ads)
    (hno : ∀ w ∈ sites, ¬(w.date = a.date ∧ w.campaign_name = a.campaign_name)) :
    (a, defaultSiteAgg) ∈ fullOuterPairs ads sites := by
  unfold fullOuterPairs
  apply List.mem_append_left
  apply List.mem_flatMap.mpr
  refine ⟨a, ha, ?_⟩
  have hms : (sites.filter fun w =>
      decide (w.date = a.date ∧ w.campaign_name = a.campaign_name)) = [] :=
    List.filter_eq_nil_iff.mpr fun w hw => by
      rw [decide_eq_false (hno w hw)]
      simp
  rw [hms]
  simp

/-- A site aggregate with no matching ad aggregate joins against the
default-filled ad side. -/
theorem siteOnly_pair {ads : List AdAgg} {sites : List SiteAgg} {w : SiteAgg}
    (hw : w ∈ sites)
    (hno : ∀ a ∈ ads, ¬(a.date = w.date ∧ a.campaign_name = w.campaign_name)) :
    (defaultAdAgg, w) ∈ fullOuterPairs ads sites := by
  unfold fullOuterPairs
  apply List.mem_append_right
  apply List.mem_map_of_mem
  refine List.mem_filter.mpr ⟨hw, decide_eq_true ?_⟩
  rintro ⟨x, hx, hcond⟩
  exact hno x hx hcond

/-- The attribution row of an ad-only pair: site aggregates and all three
ratios are zero. -/
theorem mkAttribRow_adOnly {a : AdAgg} (hs : 0 < a.ad_spend) :
    mkAttribRow a defaultSiteAgg
      = ⟨a.date, a.campaign_name, a.ad_clicks, a.ad_spend, 0, 0, 0, 0, 0, 0⟩ := by
  simp [mkAttribRow, defaultSiteAgg, hs]

/-- The attribution row of a site-only pair: the key and ad aggregates are
the default-filled values and all three ratios are zero. -/
theorem mkAttribRow_siteOnly (w : SiteAgg) :
    mkAttribRow defaultAdAgg w
      = ⟨0, "", 0, 0, w.unique_users, w.website_revenue, w.conversions, 0, 0, 0⟩ := by
  simp [mkAttribRow, defaultAdAgg]

/-- C2 (amended): under ClickHouse's default join semantics the missing
join side is filled with column-type defaults, and the query then keeps
only rows with `ad_spend > 0 OR website_revenue > 0`; so an ad-side-only
`(date, campaign)` aggregate with positive spend appears under its own key
with all site aggregates and ratios 0, while a site-side-only aggregate
appears only when its revenue is positive, and then under the default key
(epoch date, empty campaign name) with ad aggregates and ratios 0.
One-sided keys with zero spend (ad side) or zero revenue (site side) are
omitted by the `WHERE` filter. -/
theorem C2_join_completeness :
    (∀ (today : Int) (perf : List GoogleAdsPerfRow) (events : List CleanedEvent) (a : AdAgg),
      a ∈ google_ads_clicks today perf → 0 < a.ad_spend →
      (∀ w ∈ website_conversions today events,
        ¬(w.date = a.date ∧ w.campaign_name = a.campaign_name)) →
      (⟨a.date, a.campaign_name, a.ad_clicks, a.ad_spend, 0, 0, 0, 0, 0, 0⟩ : AttribRow)
        ∈ sync_attribution_data today perf events)
    ∧ (∀ (today : Int) (perf : List GoogleAdsPerfRow) (events : List CleanedEvent) (w : SiteAgg),
      w ∈ website_conversions today events → 0 < w.website_revenue →
      (∀ a ∈ google_ads_clicks today perf,
        ¬(a.date = w.date ∧ a.campaign_name = w.campaign_name)) →
      (⟨0, "", 0, 0, w.unique_users, w.website_revenue, w.conversions, 0, 0, 0⟩ : AttribRow)
        ∈ sync_attribution_data today perf events) := by
  constructor
  · intro today perf events a ha hs hno
    have h := mem_sync_of_pair (adOnly_pair ha hno)
      (Or.inl (by simpa [mkAttribRow] using hs))
    rwa [mkAttribRow_adOnly hs] at h
  · intro today perf events w hw hr hno
    have h := mem_sync_of_pair (siteOnly_pair hw hno)
      (Or.inr (by simpa [mkAttribRow] using hr))
    rwa [mkAttribRow_siteOnly] at h

/-- A stored, valid google/cpc purchase event with zero revenue. -/
def convEvent : CleanedEvent :=
  { baseRow with
      utm_source := "google"
    , utm_medium := "cpc"
    , utm_campaign := "camp1"
    , event_type := "purchase"
    , user_id := "u1" }

/-- C2 counterexample: `(20000, "camp1")` is present on the site side with
one conversion, absent on the ad side — yet the attribution output is
empty, because the `WHERE gac.ad_spend > 0 OR wc.website_revenue > 0`
filter drops the row (its revenue is 0).  The claim that such a key
"appears with ad_clicks=0, ad_spend=0; neither is omitted" is false. -/
theorem C2_counterexample :
    website_conversions 20000 [convEvent] = [⟨20000, "camp1", 1, 0, 1⟩]
    ∧ sync_attribution_data 20000 [] [convEvent] = [] := by
  constructor
  · simp +decide [website_conversions, groupKeys, toDate]
  · simp +decide [sync_attribution_data, website_conversions, google_ads_clicks, groupKeys,
      toDate, fullOuterPairs, mkAttribRow, defaultAdAgg, defaultSiteAgg, List.insertionSort]

/-- One performance row with positive spend and no site-side match. -/
def perfRow : GoogleAdsPerfRow := ⟨20000, "g1", 3, 5⟩

/-- C2 witness: the ad-only branch of the amended theorem at concrete
tables. -/
theorem C2_witness :
    (⟨20000, "g1", 3, 5, 0, 0, 0, 0, 0, 0⟩ : AttribRow)
      ∈ sync_attribution_data 20000 [perfRow] [] :=
  C2_join_completeness.1 20000 [perfRow] [] ⟨20000, "g1", 3, 5⟩
    (by simp +decide [google_ads_clicks, groupKeys, perfRow])
    (by norm_num)
    (by simp +decide [website_conversions, groupKeys, toDate])

/-- A stored, valid google/cpc purchase event with revenue 50. -/
def rev50Event : CleanedEvent := { convEvent with revenue := 50 }

/-- C3: every row of the attribution output carries exactly the guarded
ratios — `roas = website_revenue / ad_spend` only when `ad_spend > 0` else
0, `cost_per_conversion = ad_spend / website_conversions` only when
conversions are positive else 0, `click_to_visit_rate =
website_users / ad_clicks * 100` only when clicks are positive else 0 —
so every ratio is a defined rational; in particular a row with
`ad_spend = 0` and `website_revenue = 50` has `roas = 0`. -/
theorem C3_guarded_division :
    (∀ (today : Int) (perf : List GoogleAdsPerfRow) (events : List CleanedEvent)
      (r : AttribRow), r ∈ sync_attribution_data today perf events →
      r.roas = (if 0 < r.ad_spend then r.website_revenue / r.ad_spend else 0)
      ∧ r.cost_per_conversion
        = (if 0 < r.website_conversions then r.ad_spend / (r.website_conversions : ℚ) else 0)
      ∧ r.click_to_visit_rate
        = (if 0 < r.ad_clicks then (r.website_users : ℚ) / (r.ad_clicks : ℚ) * 100 else 0))
    ∧ sync_attribution_data 20000 [] [rev50Event] = [⟨0, "", 0, 0, 1, 50, 1, 0, 0, 0⟩] := by
  constructor
  · intro today perf events r hr
    obtain ⟨p, hp, rfl⟩ := sync_row_source hr
    exact ⟨rfl, rfl, rfl⟩
  · simp +decide [sync_attribution_data, website_conversions, google_ads_clicks, groupKeys,
      toDate, fullOuterPairs, mkAttribRow, defaultAdAgg, defaultSiteAgg, List.insertionSort]

/-- C3 witness: the guarded-division theorem at the concrete
zero-spend/revenue-50 row — its roas is 0, not an error or infinity. -/
theorem C3_witness : (⟨0, "", 0, 0, 1, 50, 1, 0, 0, 0⟩ : AttribRow).roas = 0 := by
  have h := (C3_guarded_division.1 20000 [] [rev50Event] ⟨0, "", 0, 0, 1, 50, 1, 0, 0, 0⟩
    (by simp +decide [sync_attribution_data, website_conversions, google_ads_clicks, groupKeys,
      toDate, fullOuterPairs, mkAttribRow, defaultAdAgg, defaultSiteAgg, List.insertionSort])).1
  rw [h]
  simp
